import Mathlib

/-!
# MoQ-Transfork core: a shallow embedding

This file embeds the core data model and session logic of the
moq-transfork engine in Lean 4 and proves the spec's claims about it.

Sources embedded:
* moq-transfork/src/track.rs       — Track / TrackWriter / TrackReader
* moq-transfork/src/util/queue.rs  — the async MPMC queue
* moq-transfork/src/session/server.rs     — handshake / role negotiation
* moq-transfork/src/session/subscribed.rs — publisher serve loop
* moq-transfork/src/session/subscriber.rs — subscriber group ingest

The shared state cell (util::State) is not part of the sources; where
its behaviour matters it is modelled from the spec (section 4.A):
lock gives a shared snapshot, lock_mut and into_mut give a mutable
guard and return None once the cell is closed, modified returns None
once the cell is closed; any mutation bumps the epoch.  Machine
integers (u64 sequence numbers, byte counts) are modelled as Nat:
none of the embedded operations can overflow a u64 in any claim.
-/

/-- The Role setup extension: 1=Publisher, 2=Subscriber, 3=Both, 4=Any. -/
inductive Role where
  | publisher
  | subscriber
  | both
  | any
deriving DecidableEq, Repr

/-- Supported protocol versions; fork00 is the sole accepted version. -/
inductive Version where
  | fork00
  | other (n : Nat)
deriving DecidableEq, Repr

/-- The error kinds of section 7.  The serve layer names this type
ServeError and the session layer MoqError in the source; both share the
same kinds, so one inductive serves for both. -/
inductive MoqError where
  | cancel
  | notFound
  | duplicate
  | wrongSize
  | version (got want : List Version)
  | roleIncompatible (client server : Role)
  | unexpectedStream
  | decode
deriving DecidableEq, Repr

/-- Modelled from the spec: Role::downgrade (setup/role.rs is not among
the sources; only its caller Server::setup is).  The section 4.F matrix:
rows are the server role, columns the client role; an empty entry is
None. -/
def Role.downgrade (server client : Role) : Option Role :=
  match server, client with
  | .publisher, .publisher => some .publisher
  | .publisher, .subscriber => none
  | .publisher, .both => some .publisher
  | .publisher, .any => some .publisher
  | .subscriber, .publisher => none
  | .subscriber, .subscriber => some .subscriber
  | .subscriber, .both => some .subscriber
  | .subscriber, .any => some .subscriber
  | .both, .publisher => some .publisher
  | .both, .subscriber => some .subscriber
  | .both, .both => some .both
  | .both, .any => some .both
  | .any, .publisher => some .publisher
  | .any, .subscriber => some .subscriber
  | .any, .both => some .both
  | .any, .any => none

/-- The decoded Client setup message: versions plus the Role extension.
The extension decoding (get + unwrap_or_default) happens in code outside
the sources, so the message carries the already-resolved client role. -/
structure ClientMsg where
  versions : List Version
  role : Role
deriving DecidableEq, Repr

/-- The Server setup reply: version FORK_00 and the Role extension. -/
structure ServerMsg where
  version : Version
  role : Role
deriving DecidableEq, Repr

/-- Server::setup (session/server.rs lines 55-81): validate the version
set, downgrade the server role by the client role, send the Server
reply carrying the effective role, and return the role the session is
started under.  The result pairs the sent reply with that returned
role.  Note the source returns server_role, not the downgraded role. -/
def Server.setup (client : ClientMsg) (server_role : Role) : Except MoqError (ServerMsg × Role) :=
  if client.versions.contains Version.fork00 then
    match server_role.downgrade client.role with
    | none => .error (.roleIncompatible client.role server_role)
    | some role => .ok ({ version := .fork00, role := role }, server_role)
  else
    .error (.version client.versions [Version.fork00])

/-- A group writer handle; only the sequence number matters to the
track-level claims (Group derefs to its sequence in the source). -/
structure GroupWriter where
  sequence : Nat
deriving DecidableEq, Repr

/-- A group reader handle, as stored in TrackState.latest. -/
structure GroupReader where
  sequence : Nat
deriving DecidableEq, Repr

/-- TrackState (track.rs lines 85-99): only the latest group is
retained; epoch counts changes of latest; closed is Ok(()) (none) or
Err(e) (some e). -/
structure TrackState where
  latest : Option GroupReader := none
  epoch : Nat := 0
  closed : Option MoqError := none
deriving DecidableEq, Repr

/-- TrackWriter::create (track.rs lines 115-137).  The writer handle
carries only its cached next sequence number (the Nat argument); the
shared TrackState is passed and returned explicitly.  lock_mut of the
state cell returns None once the cell is closed (spec 4.A), which the
source maps to Cancel.  On success the result is the GroupWriter, the
writer's new cached next, and the new shared state. -/
def TrackWriter.create (next : Nat) (st : TrackState) (sequence : Nat) :
    Except MoqError (GroupWriter × Nat × TrackState) :=
  let writer : GroupWriter := ⟨sequence⟩
  let reader : GroupReader := ⟨sequence⟩
  if st.closed.isSome then
    .error .cancel
  else
    match st.latest with
    | some latest =>
      if sequence < latest.sequence then
        .ok (writer, next, st)
      else if sequence = latest.sequence then
        .error .duplicate
      else
        .ok (writer, sequence + 1, { st with latest := some reader, epoch := st.epoch + 1 })
    | none =>
      .ok (writer, sequence + 1, { st with latest := some reader, epoch := st.epoch + 1 })

/-- TrackWriter::append (track.rs lines 140-142): create with the
cached next sequence number. -/
def TrackWriter.append (next : Nat) (st : TrackState) :
    Except MoqError (GroupWriter × Nat × TrackState) :=
  TrackWriter.create next st next

/-- TrackWriter::close (track.rs lines 145-153): propagate an existing
terminal error, otherwise store err as the terminal state. -/
def TrackWriter.close (st : TrackState) (err : MoqError) : Except MoqError TrackState :=
  match st.closed with
  | some e => .error e
  | none => .ok { st with closed := some err }

/-- TrackReader::get (track.rs lines 185-194): only the latest group is
available, and only under its exact sequence number. -/
def TrackReader.get (st : TrackState) (sequence : Nat) : Option GroupReader :=
  st.latest.filter (fun g => g.sequence == sequence)

/-- TrackReader::latest (track.rs lines 219-222). -/
def TrackReader.latest (st : TrackState) : Option Nat :=
  st.latest.map (fun g => g.sequence)

/-- The queue's shared cell: the FIFO buffer plus the cell's closed
flag.  Modelled from the spec: the state cell's closed flag (section
4.A) is the only part of util::State the queue depends on. -/
structure QueueState (T : Type) where
  buffer : List T
  closed : Bool
deriving DecidableEq, Repr

/-- Queue::push (util/queue.rs lines 10-17): lock_mut returns None once
the cell is closed (spec 4.A), in which case the item is handed back. -/
def Queue.push {T : Type} (q : QueueState T) (item : T) : Except T (QueueState T) :=
  if q.closed then .error item
  else .ok { q with buffer := q.buffer ++ [item] }

/-- The immediate outcome of one poll of Queue::pop: either the call
returns (done), or it suspends on modified() awaiting a change
(blocked). -/
inductive PopResult (T : Type) where
  | blocked
  | done (val : Option T) (rest : QueueState T)
deriving DecidableEq, Repr

/-- Queue::pop (util/queue.rs lines 19-30) on a quiescent queue.  When
the buffer is non-empty the source pops through into_mut, which returns
None once the cell is closed (spec 4.A: after close no further mutation
is permitted), so the question-mark operator turns the call into None.
When the buffer is empty, modified() is None once closed (return None)
and otherwise the call suspends. -/
def Queue.pop {T : Type} (q : QueueState T) : PopResult T :=
  match q.buffer with
  | x :: rest =>
    if q.closed then .done none q
    else .done (some x) { q with buffer := rest }
  | [] =>
    if q.closed then .done none q
    else .blocked

/-- Queue::drain (util/queue.rs lines 33-41): lock_mut fails once
closed, leaving the result empty. -/
def Queue.drain {T : Type} (q : QueueState T) : List T × QueueState T :=
  if q.closed then ([], q)
  else (q.buffer, { q with buffer := [] })

/-- The SubscribeUpdate message (spec section 6 wire table). -/
structure SubscribeUpdate where
  priority : Nat
  groupMin : Option Nat := none
  groupMax : Option Nat := none
deriving DecidableEq, Repr

/-- The GroupDrop message sent on the subscribe control stream. -/
structure GroupDrop where
  sequence : Nat
  count : Nat
  code : Nat
deriving DecidableEq, Repr

/-- How one iteration of Subscribed::run ends abnormally: a Rust panic
(the todo macro, whose message names the SubscribeUpdate stub) or an
error returned with the question-mark operator. -/
inductive RunAbort where
  | panicked
  | errored (e : MoqError)
deriving DecidableEq, Repr

/-- Subscribed::recv_update (subscribed.rs lines 99-103): the body is
todo!("SubscribeUpdate"), which panics unconditionally; the statements
below it are dead code. -/
def Subscribed.recv_update (_update : SubscribeUpdate) : Except RunAbort Unit :=
  .error .panicked

/-- The loop-local state of Subscribed::run: the fin flag and the
sequences of the in-flight group tasks (FuturesUnordered). -/
structure SubscribedLoop where
  fin : Bool := false
  tasks : List Nat := []
  update : Option SubscribeUpdate := none
deriving DecidableEq, Repr

/-- The events the select arms of Subscribed::run (subscribed.rs lines
35-71) react to: a result from track.next_group, a decoded
SubscribeUpdate, or the completion of an in-flight group task. -/
inductive ServeEvent where
  | groupArrived (g : Option GroupReader)
  | updateArrived (u : SubscribeUpdate)
  | taskFinished (sequence : Nat) (failure : Option MoqError)
deriving DecidableEq, Repr

/-- One iteration of the Subscribed::run select loop (subscribed.rs
lines 35-71).  Returns the new loop state together with the GroupDrop
messages written to the control stream during the iteration. -/
def Subscribed.serveStep (st : SubscribedLoop) (ev : ServeEvent) :
    Except RunAbort (SubscribedLoop × List GroupDrop) :=
  match ev with
  | .groupArrived none => .ok ({ st with fin := true }, [])
  | .groupArrived (some g) => .ok ({ st with tasks := st.tasks ++ [g.sequence] }, [])
  | .updateArrived u =>
    match Subscribed.recv_update u with
    | .error a => .error a
    | .ok _ => .ok ({ st with update := some u }, [])
  | .taskFinished sequence none =>
    .ok ({ st with tasks := st.tasks.erase sequence }, [])
  | .taskFinished sequence (some _) =>
    .ok ({ st with tasks := st.tasks.erase sequence },
         [{ sequence := sequence, count := 0, code := 1 }])

/-- The Group message opening a group uni-stream. -/
structure GroupMsg where
  subscribe : Nat
  sequence : Nat
  expires : Option Nat := none
deriving DecidableEq, Repr

/-- Modelled from the spec: the stream Reader (session/reader.rs is not
among the sources).  A group uni-stream after its Group message is a
sequence of decoded Frame headers interleaved with raw payload chunks;
chunks are abstracted to their byte counts, since serve_group never
inspects payload bytes.  decode_maybe yields a frameHeader event or
None at clean end of stream; read_chunk yields the byte count of the
next payload chunk, and None when no payload remains. -/
inductive StreamEvent where
  | frameHeader (size : Nat)
  | chunk (len : Nat)
deriving DecidableEq, Repr

/-- The inner while of Subscriber::serve_group (subscriber.rs lines
213-222): read chunks via read_chunk(remain) until the declared size is
consumed.  read_chunk returning None (end of payload) is WrongSize, and
a chunk longer than remain makes checked_sub fail, also WrongSize.
Returns the total bytes written to the frame writer and the rest of the
stream. -/
def readFrame : Nat → List StreamEvent → Except MoqError (Nat × List StreamEvent)
  | 0, events => .ok (0, events)
  | _ + 1, [] => .error .wrongSize
  | _ + 1, .frameHeader _ :: _ => .error .wrongSize
  | r + 1, .chunk c :: rest =>
    if r + 1 < c then .error .wrongSize
    else
      match readFrame (r + 1 - c) rest with
      | .ok (w, rest') => .ok (c + w, rest')
      | .error e => .error e

/-- readFrame consumes events, never invents them. -/
theorem readFrame_length_le (s : Nat) (events : List StreamEvent) (w : Nat)
    (rest : List StreamEvent) (h : readFrame s events = .ok (w, rest)) :
    rest.length ≤ events.length := by
  induction events generalizing s w with
  | nil =>
    cases s with
    | zero => simp [readFrame] at h; simp [h]
    | succ _ => simp [readFrame] at h
  | cons e tail ih =>
    cases s with
    | zero => simp [readFrame] at h; simp [h]
    | succ r =>
      cases e with
      | frameHeader _ => simp [readFrame] at h
      | chunk c =>
        simp only [readFrame] at h
        by_cases hc : r + 1 < c
        · simp [hc] at h
        · simp only [hc, if_false] at h
          cases hrec : readFrame (r + 1 - c) tail with
          | error e => rw [hrec] at h; simp at h
          | ok p =>
            rw [hrec] at h
            obtain ⟨w', rest'⟩ := p
            simp at h
            obtain ⟨_, hr⟩ := h
            subst hr
            exact Nat.le_succ_of_le (ih _ _ hrec)

/-- The outer while of Subscriber::serve_group (subscriber.rs lines
211-223): decode_maybe a Frame header (None at clean end of stream
finishes the group), create a frame writer of the declared size, and
read exactly that many payload bytes.  Returns the byte counts of the
completed frames in order.  A raw chunk where a Frame header is due is
a codec error. -/
def serveFrames : List StreamEvent → Except MoqError (List Nat)
  | [] => .ok []
  | .chunk _ :: _ => .error .decode
  | .frameHeader s :: rest =>
    match h : readFrame s rest with
    | .error e => .error e
    | .ok (w, rest') =>
      match serveFrames rest' with
      | .error e => .error e
      | .ok ws => .ok (w :: ws)
termination_by events => events.length
decreasing_by
  simp only [List.length_cons]
  exact Nat.lt_succ_of_le (readFrame_length_le _ _ _ _ h)

/-- Subscriber::serve_group (subscriber.rs lines 203-226): look the
subscribe id up in the id-to-TrackWriter table (NotFound on a miss),
create the group (create_group is the TrackWriter create of track.rs),
then ingest the frames.  The table entry carries the writer's cached
next sequence and the track's shared state. -/
def Subscriber.serve_group (tracks : List (Nat × (Nat × TrackState))) (msg : GroupMsg)
    (events : List StreamEvent) : Except MoqError (List Nat) :=
  match tracks.lookup msg.subscribe with
  | none => .error .notFound
  | some (next, st) =>
    match TrackWriter.create next st msg.sequence with
    | .error e => .error e
    | .ok _ => serveFrames events

/-- Auxiliary: readFrame delivers exactly the declared number of bytes
to the frame writer whenever it succeeds. -/
theorem readFrame_ok_size (s : Nat) (events : List StreamEvent) (w : Nat)
    (rest : List StreamEvent) (h : readFrame s events = .ok (w, rest)) : w = s := by
  induction events generalizing s w with
  | nil =>
    cases s with
    | zero => simp [readFrame] at h; omega
    | succ _ => simp [readFrame] at h
  | cons e tail ih =>
    cases s with
    | zero => simp [readFrame] at h; omega
    | succ r =>
      cases e with
      | frameHeader _ => simp [readFrame] at h
      | chunk c =>
        simp only [readFrame] at h
        by_cases hc : r + 1 < c
        · simp [hc] at h
        · simp only [hc, if_false] at h
          cases hrec : readFrame (r + 1 - c) tail with
          | error e => rw [hrec] at h; simp at h
          | ok p =>
            rw [hrec] at h
            obtain ⟨w', rest'⟩ := p
            simp at h
            obtain ⟨hw, hr⟩ := h
            subst hr
            have := ih _ _ hrec
            omega

/-- Is every stream event a raw payload chunk? -/
def allChunks (events : List StreamEvent) : Bool :=
  events.all (fun e => match e with | .chunk _ => true | .frameHeader _ => false)

/-- Total payload bytes carried by a list of stream events. -/
def chunkTotal : List StreamEvent → Nat
  | [] => 0
  | .chunk c :: rest => c + chunkTotal rest
  | .frameHeader _ :: rest => chunkTotal rest

/-- Auxiliary: a frame whose payload runs out before the declared size
(the stream ends early) fails with WrongSize. -/
theorem readFrame_starved (events : List StreamEvent) (s : Nat)
    (hall : allChunks events = true) (hlt : chunkTotal events < s) :
    readFrame s events = .error .wrongSize := by
  induction events generalizing s with
  | nil =>
    cases s with
    | zero => simp [chunkTotal] at hlt
    | succ r => simp [readFrame]
  | cons e tail ih =>
    cases e with
    | frameHeader _ => simp [allChunks] at hall
    | chunk c =>
      simp only [allChunks, List.all_cons, Bool.and_eq_true] at hall
      simp only [chunkTotal] at hlt
      cases s with
      | zero => omega
      | succ r =>
        have hc : ¬ r + 1 < c := by omega
        have htail : chunkTotal tail < r + 1 - c := by omega
        simp only [readFrame, hc, if_false]
        rw [ih (r + 1 - c) hall.2 htail]

/-- C1: on a track whose state holds a latest group with sequence L,
create(s) with s greater than L replaces latest with the new group and
bumps the epoch; create(s) with s equal to L fails with Duplicate; and
create(s) with s smaller than L returns a GroupWriter while leaving the
state (latest and epoch) untouched, so no reader can observe the new
group (get(s) stays none and every reader-visible projection of the
state is unchanged). -/
theorem create_ordering_c1 (next : Nat) (st : TrackState) (L s : Nat)
    (hclosed : st.closed = none) (hlatest : st.latest = some ⟨L⟩) :
    (L < s → TrackWriter.create next st s =
      .ok (⟨s⟩, s + 1, { st with latest := some ⟨s⟩, epoch := st.epoch + 1 })) ∧
    (s = L → TrackWriter.create next st s = .error .duplicate) ∧
    (s < L → TrackWriter.create next st s = .ok (⟨s⟩, next, st) ∧
      TrackReader.get st s = none) := by
  refine ⟨fun h => ?_, fun h => ?_, fun h => ?_⟩
  · have h1 : ¬ s < L := by omega
    have h2 : ¬ s = L := by omega
    simp [TrackWriter.create, hclosed, hlatest, h1, h2]
  · simp [TrackWriter.create, hclosed, hlatest, h]
  · have h2 : (L == s) = false := by simp; omega
    refine ⟨by simp [TrackWriter.create, hclosed, hlatest, h], ?_⟩
    simp [TrackReader.get, hlatest, Option.filter, h2]

/-- Witness for C1 at a concrete track state with latest sequence 5. -/
theorem create_ordering_c1_witness :
    TrackWriter.create 9 ⟨some ⟨5⟩, 3, none⟩ 7 = .ok (⟨7⟩, 8, ⟨some ⟨7⟩, 4, none⟩) ∧
    TrackWriter.create 9 ⟨some ⟨5⟩, 3, none⟩ 5 = .error .duplicate ∧
    (TrackWriter.create 9 ⟨some ⟨5⟩, 3, none⟩ 2 = .ok (⟨2⟩, 9, ⟨some ⟨5⟩, 3, none⟩) ∧
      TrackReader.get ⟨some ⟨5⟩, 3, none⟩ 2 = none) :=
  ⟨(create_ordering_c1 9 ⟨some ⟨5⟩, 3, none⟩ 5 7 rfl rfl).1 (by decide),
   (create_ordering_c1 9 ⟨some ⟨5⟩, 3, none⟩ 5 5 rfl rfl).2.1 rfl,
   (create_ordering_c1 9 ⟨some ⟨5⟩, 3, none⟩ 5 2 rfl rfl).2.2 (by decide)⟩

/-- C2: with server role Any and client role Publisher (versions
containing FORK_00), Server::setup computes and sends the downgraded
role Publisher in the Server reply, yet hands the original server role
Any to Session::start, so the session is not established under the
effective role the claim (and the sent reply) promise. -/
theorem setup_role_divergence_c2 :
    Server.setup ⟨[Version.fork00], Role.publisher⟩ Role.any =
      .ok ({ version := .fork00, role := .publisher }, Role.any) ∧
    Role.any ≠ Role.publisher := by
  exact ⟨rfl, by decide⟩

/-- C3 counterexample: a queue closed while still holding a buffered
item; the next pop returns none and leaves the item stranded, instead
of draining it first as the claim states. -/
theorem queue_pop_after_close_counterexample_c3 :
    Queue.pop (⟨[37], true⟩ : QueueState Nat) = .done none ⟨[37], true⟩ ∧
    Queue.pop (⟨[37], true⟩ : QueueState Nat) ≠ .done (some 37) ⟨[], true⟩ := by
  decide

/-- C3 amended: once the queue's cell is closed, every pop returns none
immediately and leaves the buffer untouched; buffered items are never
yielded by pop. -/
theorem queue_pop_after_close_c3 {T : Type} (q : QueueState T) (h : q.closed = true) :
    Queue.pop q = .done none q := by
  unfold Queue.pop
  cases q.buffer <;> simp [h]

/-- Witness for the amended C3 on a closed queue holding two items. -/
theorem queue_pop_after_close_c3_witness :
    Queue.pop (⟨[1, 2], true⟩ : QueueState Nat) = .done none ⟨[1, 2], true⟩ :=
  queue_pop_after_close_c3 ⟨[1, 2], true⟩ rfl

/-- C4: every SubscribeUpdate reaching the publisher serve loop hits
the todo macro in Subscribed::recv_update, so the iteration panics
instead of acknowledging the update and continuing. -/
theorem recv_update_panics_c4 (st : SubscribedLoop) (u : SubscribeUpdate) :
    Subscribed.serveStep st (.updateArrived u) = .error .panicked :=
  rfl

/-- C5: group ingest fails with NotFound when the Group message's
subscribe id is absent from the id-to-TrackWriter table; a successful
frame read delivers exactly the declared size; a frame whose payload
chunks run out before the declared size fails with WrongSize; and a
chunk longer than the remaining count fails with WrongSize. -/
theorem serve_group_ingest_c5 :
    (∀ tracks msg events, tracks.lookup msg.subscribe = none →
      Subscriber.serve_group tracks msg events = .error .notFound) ∧
    (∀ s events w rest, readFrame s events = .ok (w, rest) → w = s) ∧
    (∀ s events, allChunks events = true → chunkTotal events < s →
      readFrame s events = .error .wrongSize) ∧
    (∀ r c rest, 0 < r → r < c →
      readFrame r (.chunk c :: rest) = .error .wrongSize) := by
  refine ⟨?_, ?_, ?_, ?_⟩
  · intro tracks msg events h
    simp [Subscriber.serve_group, h]
  · exact fun s events w rest h => readFrame_ok_size s events w rest h
  · exact fun s events hall hlt => readFrame_starved events s hall hlt
  · intro r c rest hr hc
    cases r with
    | zero => omega
    | succ n => simp [readFrame, hc]

/-- Witness for C5: a missing id 0, an exact two-chunk frame, a starved
frame, and an oversized chunk. -/
theorem serve_group_ingest_c5_witness :
    Subscriber.serve_group [] ⟨0, 5, none⟩ [] = .error .notFound ∧
    (3 : Nat) = 3 ∧
    readFrame 5 [.chunk 2] = .error .wrongSize ∧
    readFrame 2 [.chunk 5] = .error .wrongSize :=
  ⟨serve_group_ingest_c5.1 [] ⟨0, 5, none⟩ [] rfl,
   serve_group_ingest_c5.2.1 3 [.chunk 1, .chunk 2] 3 [] (by rfl),
   serve_group_ingest_c5.2.2.1 5 [.chunk 2] (by decide) (by decide),
   serve_group_ingest_c5.2.2.2 2 5 [] (by decide) (by decide)⟩

/-- The operations a track writer can perform on the shared state
(close ends the run, so the claim's traces are create/append). -/
inductive TrackOp where
  | create (sequence : Nat)
  | append
deriving DecidableEq, Repr

/-- Run one create call, keeping the previous writer cache and state
when the call fails (the source returns the error and mutates
nothing). -/
def applyCreate (next : Nat) (st : TrackState) (s : Nat) : Nat × TrackState :=
  match TrackWriter.create next st s with
  | .ok (_, n', st') => (n', st')
  | .error _ => (next, st)

/-- Run one writer operation; append is create with the cached next
(track.rs line 141). -/
def applyOp (next : Nat) (st : TrackState) (op : TrackOp) : Nat × TrackState :=
  match op with
  | .create s => applyCreate next st s
  | .append => applyCreate next st next

/-- Run a trace of operations, each tagged with the index of the
(cloned) writer performing it; every writer keeps its own cached next
while the TrackState is shared. -/
def runOps (ws : List Nat) (st : TrackState) : List (Nat × TrackOp) → List Nat × TrackState
  | [] => (ws, st)
  | (i, op) :: rest =>
    let p := applyCreate (ws.getD i 0) st (match op with | .create s => s | .append => ws.getD i 0)
    runOps (ws.set i p.1) p.2 rest

/-- Auxiliary: one create call never lowers the latest sequence. -/
theorem applyCreate_latest_mono (next : Nat) (st : TrackState) (s : Nat) (g : GroupReader)
    (h : st.latest = some g) :
    ∃ g', (applyCreate next st s).2.latest = some g' ∧ g.sequence ≤ g'.sequence := by
  by_cases hcl : st.closed.isSome
  · have heq : applyCreate next st s = (next, st) := by
      simp [applyCreate, TrackWriter.create, hcl]
    rw [heq]
    exact ⟨g, h, Nat.le_refl _⟩
  · rcases Nat.lt_trichotomy s g.sequence with h1 | h1 | h1
    · have heq : applyCreate next st s = (next, st) := by
        simp [applyCreate, TrackWriter.create, hcl, h, h1]
      rw [heq]
      exact ⟨g, h, Nat.le_refl _⟩
    · have heq : applyCreate next st s = (next, st) := by
        simp [applyCreate, TrackWriter.create, hcl, h, h1]
      rw [heq]
      exact ⟨g, h, Nat.le_refl _⟩
    · have hne : ¬ s < g.sequence := by omega
      have hne2 : ¬ s = g.sequence := by omega
      have heq : applyCreate next st s =
          (s + 1, { st with latest := some ⟨s⟩, epoch := st.epoch + 1 }) := by
        simp [applyCreate, TrackWriter.create, hcl, h, hne, hne2]
      rw [heq]
      exact ⟨⟨s⟩, rfl, Nat.le_of_lt h1⟩

/-- C6: over every trace of create/append operations by any of the
track's writers, the sequence number of state.latest never decreases. -/
theorem track_latest_monotone_c6 (trace : List (Nat × TrackOp)) (ws : List Nat)
    (st : TrackState) (g : GroupReader) (h : st.latest = some g) :
    ∃ g', (runOps ws st trace).2.latest = some g' ∧ g.sequence ≤ g'.sequence := by
  induction trace generalizing ws st g with
  | nil => exact ⟨g, h, Nat.le_refl _⟩
  | cons p rest ih =>
    obtain ⟨i, op⟩ := p
    obtain ⟨g1, h1, hle1⟩ :=
      applyCreate_latest_mono (ws.getD i 0) st
        (match op with | .create s => s | .append => ws.getD i 0) g h
    obtain ⟨g2, h2, hle2⟩ := ih _ _ _ h1
    exact ⟨g2, by simpa [runOps] using h2, Nat.le_trans hle1 hle2⟩

/-- Witness for C6: two writers interleaving an in-order create, a
stale create and an append on a track whose latest sequence is 2. -/
theorem track_latest_monotone_c6_witness :
    ∃ g', (runOps [0, 7] ⟨some ⟨2⟩, 1, none⟩
        [(0, TrackOp.create 5), (1, TrackOp.create 1), (0, TrackOp.append)]).2.latest =
      some g' ∧ 2 ≤ g'.sequence :=
  track_latest_monotone_c6 [(0, TrackOp.create 5), (1, TrackOp.create 1), (0, TrackOp.append)]
    [0, 7] ⟨some ⟨2⟩, 1, none⟩ ⟨2⟩ rfl

/-- One append call on the writer cache and shared state, keeping both
when the call fails. -/
def appendStep (p : Nat × TrackState) : Nat × TrackState :=
  match TrackWriter.append p.1 p.2 with
  | .ok (_, n', st') => (n', st')
  | .error _ => p

/-- The writer cache and shared state after n append calls on a fresh
track (TrackWriter::new starts with next = 0 and a default state). -/
def appendRun : Nat → Nat × TrackState
  | 0 => (0, {})
  | n + 1 => appendStep (appendRun n)

/-- Auxiliary: the exact writer cache and state after n + 1 appends. -/
theorem appendRun_succ_eq (n : Nat) :
    appendRun (n + 1) =
      (n + 1, { latest := some ⟨n⟩, epoch := n + 1, closed := none }) := by
  induction n with
  | zero => rfl
  | succ k ih =>
    have h1 : ¬ (k + 1 < k) := by omega
    have h2 : ¬ (k + 1 = k) := by omega
    rw [show appendRun (k + 1 + 1) = appendStep (appendRun (k + 1)) from rfl, ih]
    simp [appendStep, TrackWriter.append, TrackWriter.create, h1, h2]

/-- C7: on a fresh TrackWriter where only append is called, the (n+1)st
append succeeds with a group of sequence n — the appends produce the
sequences 0, 1, 2, … — and each append uses the cached next sequence
number, which starts at 0 and becomes latest.sequence + 1. -/
theorem append_sequences_c7 (n : Nat) :
    TrackWriter.append (appendRun n).1 (appendRun n).2 =
      .ok (⟨n⟩, n + 1, { latest := some ⟨n⟩, epoch := n + 1, closed := none }) := by
  cases n with
  | zero => rfl
  | succ m =>
    rw [appendRun_succ_eq]
    have h1 : ¬ (m + 1 < m) := by omega
    have h2 : ¬ (m + 1 = m) := by omega
    simp [TrackWriter.append, TrackWriter.create, h1, h2]

/-- C8 counterexample: a track already closed with Cancel; a second
close with the same error returns Err(Cancel) rather than succeeding,
so close is not idempotent-with-success even for an identical error. -/
theorem close_same_error_counterexample_c8 :
    TrackWriter.close ⟨none, 0, some .cancel⟩ .cancel = .error .cancel ∧
    TrackWriter.close ⟨none, 0, some .cancel⟩ .cancel ≠ .ok ⟨none, 0, some .cancel⟩ := by
  exact ⟨rfl, by simp [TrackWriter.close]⟩

/-- C8 amended: the first close(err) on an open track stores err as the
terminal state; every later close — with the same or a different error
— returns Err(stored error) and leaves the stored error unchanged. -/
theorem close_first_wins_c8 (st : TrackState) (err err2 : MoqError) (h : st.closed = none) :
    TrackWriter.close st err = .ok { st with closed := some err } ∧
    TrackWriter.close { st with closed := some err } err2 = .error err := by
  simp [TrackWriter.close, h]

/-- Witness for the amended C8: close with Cancel, then with
Duplicate. -/
theorem close_first_wins_c8_witness :
    TrackWriter.close ⟨none, 0, none⟩ .cancel = .ok ⟨none, 0, some .cancel⟩ ∧
    TrackWriter.close ⟨none, 0, some .cancel⟩ .duplicate = .error .cancel :=
  close_first_wins_c8 ⟨none, 0, none⟩ .cancel .duplicate rfl

/-- C9: when an in-flight group task finishes with an error, the serve
loop iteration writes exactly one GroupDrop carrying the failed group's
sequence number and count 0 to the control stream. -/
theorem group_drop_on_failure_c9 (st : SubscribedLoop) (seq : Nat) (e : MoqError) :
    Subscribed.serveStep st (.taskFinished seq (some e)) =
      .ok ({ st with tasks := st.tasks.erase seq },
           [{ sequence := seq, count := 0, code := 1 }]) :=
  rfl

/-- C10: a Frame header declaring size 0 is accepted by group ingest:
the frame writer is created, the frame completes with no read_chunk
call (no stream event is consumed for its payload), and ingest
proceeds to decode the next Frame from the very same remaining
stream. -/
theorem zero_size_frame_c10 (events : List StreamEvent) :
    serveFrames (.frameHeader 0 :: events) = (serveFrames events).map (fun ws => 0 :: ws) := by
  simp only [serveFrames]
  split
  · next e heq =>
    have h0 : readFrame 0 events = .ok (0, events) := by simp [readFrame]
    rw [h0] at heq
    exact absurd heq (by simp)
  · next w rest' heq =>
    have h0 : readFrame 0 events = .ok (0, events) := by simp [readFrame]
    rw [h0] at heq
    obtain ⟨rfl, rfl⟩ : 0 = w ∧ events = rest' := by
      injection heq with h1
      injection h1 with h2 h3
      exact ⟨h2, h3⟩
    cases h2 : serveFrames events <;> simp [h2, Except.map]
